import Mathlib

/-!
Verification of the serverless-go user CRUD service.

The development shallowly embeds the Go sources:
  - pkg/models/user.go        (the User record)
  - pkg/validators/validators.go  (email / record validation)
  - pkg/repository (RepositoryDB namespace): the DynamoDB-backed repository,
    modelled over an explicit store state with transport-fault injection
  - pkg/handlers (Handlers namespace): the API Gateway request handlers and
    the response formatter

Machine integers appear only as bounded string lengths and the strconv.Atoi
range check, modelled with Nat / Int and explicit bounds.
-/

/-- Decidable equality for Except, used to evaluate the embedded operations
on concrete inputs. -/
instance {ε α : Type} [DecidableEq ε] [DecidableEq α] : DecidableEq (Except ε α) := fun x y =>
  match x, y with
  | Except.error a, Except.error b =>
    if h : a = b then Decidable.isTrue (by rw [h])
    else Decidable.isFalse (by intro hc; cases hc; exact h rfl)
  | Except.error _, Except.ok _ => Decidable.isFalse (by intro hc; cases hc)
  | Except.ok _, Except.error _ => Decidable.isFalse (by intro hc; cases hc)
  | Except.ok a, Except.ok b =>
    if h : a = b then Decidable.isTrue (by rw [h])
    else Decidable.isFalse (by intro hc; cases hc; exact h rfl)

namespace Models

/-- User record from pkg/models/user.go: three string fields
(JSON keys email / firstName / lastName). -/
structure User where
  Email : String
  FirstName : String
  LastName : String
deriving DecidableEq, Repr

end Models

namespace Validators

/-- The ASCII-alphanumeric class [a-zA-Z0-9] used by the rxEmail regex. -/
def isAlnum (c : Char) : Bool :=
  (Char.ofNat 65 ≤ c && c ≤ Char.ofNat 90) ||
  (Char.ofNat 97 ≤ c && c ≤ Char.ofNat 122) ||
  (Char.ofNat 48 ≤ c && c ≤ Char.ofNat 57)

/-- The special characters admitted in the local part of rxEmail, i.e. the
class [.!#$%&'*+/=?^_`\x7b|\x7d~-] (apostrophe, backtick, braces written via
their code points). -/
def localSpecials : List Char :=
  ['.', '!', '#', '$', '%', '&', Char.ofNat 39, '*', '+', '/', '=', '?', '^', '_',
   Char.ofNat 96, Char.ofNat 123, '|', Char.ofNat 125, '~', '-']

/-- A character allowed in the local part of an email per rxEmail. -/
def isLocalChar (c : Char) : Bool :=
  isAlnum c || localSpecials.contains c

/-- A character allowed inside a domain label: alphanumeric or hyphen. -/
def isLabelChar (c : Char) : Bool :=
  isAlnum c || c = '-'

/-- First character is alphanumeric. -/
def headAlnum : List Char → Bool
  | [] => false
  | c :: _ => isAlnum c

/-- Last character is alphanumeric. -/
def lastAlnum (cs : List Char) : Bool :=
  match cs.getLast? with
  | none => false
  | some c => isAlnum c

/-- A valid domain label per rxEmail, i.e. the fragment
[a-zA-Z0-9](?:[a-zA-Z0-9-]\x7b0,61\x7d[a-zA-Z0-9])? : length 1..63, every
character alphanumeric or hyphen, first and last character alphanumeric. -/
def validLabel (cs : List Char) : Bool :=
  cs.length ≤ 63 && cs.all isLabelChar && headAlnum cs && lastAlnum cs

/-- Split a character list at every occurrence of a separator; the result is
always nonempty, and empty groups mark adjacent, leading or trailing
separators. -/
def splitOnChar (sep : Char) : List Char → List (List Char)
  | [] => [[]]
  | c :: cs =>
    match splitOnChar sep cs with
    | [] => if c = sep then [[], []] else [[c]]
    | g :: gs => if c = sep then [] :: g :: gs else (c :: g) :: gs

/-- The language of the Go regex rxEmail from pkg/validators/validators.go:
one or more local-part characters, an at sign, then one or more dot-separated
domain labels.  Since neither character class contains the at sign, a match
has exactly one at sign, so splitting on it is equivalent to the anchored
regex. -/
def rxEmailMatch (s : String) : Bool :=
  match splitOnChar '@' s.toList with
  | [localPart, domain] =>
    decide (1 ≤ localPart.length) && localPart.all isLocalChar &&
    (splitOnChar '.' domain).all validLabel
  | _ => false

/-- IsEmailValid from pkg/validators/validators.go: byte length in [3, 254]
and the rxEmail regex must match. -/
def IsEmailValid (email : String) : Bool :=
  if email.utf8ByteSize < 3 || email.utf8ByteSize > 254 || !rxEmailMatch email then
    false
  else
    true

/-- ValidateUser from pkg/validators/validators.go: returns the first failing
rule's error message (Go returns error; none models a nil error). -/
def ValidateUser (user : Models.User) : Option String :=
  if user.Email = "" then some "email is required"
  else if !IsEmailValid user.Email then some "invalid email format"
  else if user.FirstName = "" then some "first name is required"
  else if user.LastName = "" then some "last name is required"
  else none

end Validators

namespace Repository

open Models

/-- Repository error-message constants from pkg/repository. -/
def ErrorFailedToFetchRecord : String := "failed to fetch record from DynamoDB"

/-- See ErrorFailedToFetchRecord. -/
def ErrorCouldNotDeleteItem : String := "could not delete item"

/-- See ErrorFailedToFetchRecord. -/
def ErrorCouldNotDynamoPutItem : String := "could not put item into DynamoDB"

/-- See ErrorFailedToFetchRecord. -/
def ErrorUserAlreadyExists : String := "user already exists"

/-- See ErrorFailedToFetchRecord. -/
def ErrorUserDoesNotExist : String := "user does not exist"

/-- See ErrorFailedToFetchRecord. -/
def ErrorCouldNotScanItems : String := "could not scan items from DynamoDB"

/-- See ErrorFailedToFetchRecord. -/
def ErrorInvalidLastEvaluatedKey : String := "invalid last evaluated key for pagination"

/-- Model of the DynamoDB table and client collaborator (spec §6): the items
in store traversal order, keyed by email, plus per-primitive transport-fault
injection.  A fault of some msg makes the corresponding SDK call return the
underlying transport error message msg. -/
structure DynamoDB where
  items : List User
  getErr : Option String
  putErr : Option String
  deleteErr : Option String
  scanErr : Option String
deriving DecidableEq, Repr

/-- Key lookup in the table: first item whose email equals the key (the
store guarantees key uniqueness, so at most one item matches). -/
def lookupItem (db : DynamoDB) (email : String) : Option User :=
  db.items.find? (fun u => u.Email == email)

/-- Model of the DynamoDB GetItem call: transport fault or the item under
the key. -/
def getItem (db : DynamoDB) (email : String) : Except String (Option User) :=
  match db.getErr with
  | some e => Except.error e
  | none => Except.ok (lookupItem db email)

/-- PutItem key semantics on the item list: replace the item holding the
same email in place, or append the new item. -/
def putList (u : User) : List User → List User
  | [] => [u]
  | v :: vs => if v.Email == u.Email then u :: vs else v :: putList u vs

/-- Model of the DynamoDB PutItem call: transport fault or key-replacing
insertion. -/
def putItem (db : DynamoDB) (u : User) : Except String DynamoDB :=
  match db.putErr with
  | some e => Except.error e
  | none => Except.ok { db with items := putList u db.items }

/-- Model of the DynamoDB DeleteItem call: transport fault or removal of
the item under the key. -/
def deleteItem (db : DynamoDB) (email : String) : Except String DynamoDB :=
  match db.deleteErr with
  | some e => Except.error e
  | none => Except.ok { db with items := db.items.filter (fun u => u.Email != email) }

/-- Items strictly after the item carrying the given key, in traversal
order: the scan resumed from an ExclusiveStartKey. -/
def afterKey (key : String) : List User → List User
  | [] => []
  | v :: vs => if v.Email == key then vs else afterKey key vs

/-- Model of the DynamoDB Scan call with Limit and optional
ExclusiveStartKey: transport fault, or up to limit items from the resume
position; LastEvaluatedKey is present exactly when the scan stopped because
the limit was reached (DynamoDB does not look ahead, so it is present even
when the limit fell on the final item). -/
def scan (db : DynamoDB) (limit : Int) (startKey : Option String) :
    Except String (List User × Option String) :=
  match db.scanErr with
  | some e => Except.error e
  | none =>
    let rest := match startKey with
      | none => db.items
      | some k => afterKey k db.items
    let page := rest.take limit.toNat
    if 0 < limit.toNat ∧ limit.toNat ≤ rest.length then
      Except.ok (page, (page.getLast?).map (fun u => u.Email))
    else
      Except.ok (page, none)

/-- JSON encoding of a DynamoDB key map for this table, as produced by
json.Marshal on map[string]*AttributeValue with the single email key. -/
def keyJson (email : String) : String :=
  "\x7b\"email\":\x7b\"S\":\"" ++ email ++ "\"\x7d\x7d"

/-- Strip an expected head from a character list, returning the remainder
after it. -/
def stripHead : List Char → List Char → Option (List Char)
  | [], rest => some rest
  | _, [] => none
  | p :: ps, c :: cs => if c = p then stripHead ps cs else none

/-- Take the characters before the next double quote, together with the
remainder after that quote. -/
def takeToQuote : List Char → Option (List Char × List Char)
  | [] => none
  | c :: cs =>
    if c = Char.ofNat 34 then some ([], cs)
    else
      match takeToQuote cs with
      | none => none
      | some (body, rest) => some (c :: body, rest)

/-- Model of json.Unmarshal into a DynamoDB key map: accepts exactly the
strings produced by keyJson (whose email fragment has no quote character)
and recovers the email key. -/
def parseKeyJson (s : String) : Option String :=
  match stripHead ("\x7b\"email\":\x7b\"S\":\"").toList s.toList with
  | none => none
  | some rest =>
    match takeToQuote rest with
    | none => none
    | some (body, rest2) =>
      if rest2 = [Char.ofNat 125, Char.ofNat 125] then some (String.mk body) else none

/-- FetchUser from pkg/repository: GetItem under the email key; a transport
fault is wrapped as ErrorFailedToFetchRecord, a missing item is returned as
ok none (nil, nil in Go), a present item is returned as found.
(dynamodbattribute.UnmarshalMap of a well-typed stored item into the
three-string User struct cannot fail, so the unmarshal-error branch of the
Go code is unreachable in this typed model.) -/
def FetchUser (db : DynamoDB) (email : String) : Except String (Option User) :=
  match getItem db email with
  | Except.error e => Except.error (ErrorFailedToFetchRecord ++ ": " ++ e)
  | Except.ok none => Except.ok none
  | Except.ok (some item) => Except.ok (some item)

/-- Decode of the lastEvaluatedKey argument inside FetchUsers: an empty
string means no ExclusiveStartKey; a nonempty string must json.Unmarshal
into a key map, else ErrorInvalidLastEvaluatedKey. -/
def decodeStartKey (lastEvaluatedKey : String) : Except String (Option String) :=
  if lastEvaluatedKey = "" then Except.ok none
  else
    match parseKeyJson lastEvaluatedKey with
    | none => Except.error ErrorInvalidLastEvaluatedKey
    | some k => Except.ok (some k)

/-- FetchUsers from pkg/repository: decode the pagination token, Scan with
the limit, wrap a scan transport fault as ErrorCouldNotScanItems, and
re-encode LastEvaluatedKey with json.Marshal (empty string when the scan
returned none).  UnmarshalListOfMaps and the key-map Marshal cannot fail on
well-typed data, so those Go error branches are unreachable here. -/
def FetchUsers (db : DynamoDB) (limit : Int) (lastEvaluatedKey : String) :
    Except String (List User × String) :=
  match decodeStartKey lastEvaluatedKey with
  | Except.error e => Except.error e
  | Except.ok startKey =>
    match scan db limit startKey with
    | Except.error e => Except.error (ErrorCouldNotScanItems ++ ": " ++ e)
    | Except.ok (users, lek) =>
      let newLastEvaluatedKey := match lek with
        | none => ""
        | some k => keyJson k
      Except.ok (users, newLastEvaluatedKey)

/-- CreateUser from pkg/repository: FetchUser first (propagating its error
unchanged), fail with ErrorUserAlreadyExists when the email is present, else
PutItem (wrapping a transport fault as ErrorCouldNotDynamoPutItem).  The
pair carries the resulting store state; on every error path the store is the
input store.  (dynamodbattribute.MarshalMap of a three-string struct cannot
fail, so that Go error branch is unreachable here.) -/
def CreateUser (db : DynamoDB) (user : User) : Except String User × DynamoDB :=
  match FetchUser db user.Email with
  | Except.error e => (Except.error e, db)
  | Except.ok (some _) => (Except.error ErrorUserAlreadyExists, db)
  | Except.ok none =>
    match putItem db user with
    | Except.error e => (Except.error (ErrorCouldNotDynamoPutItem ++ ": " ++ e), db)
    | Except.ok db2 => (Except.ok user, db2)

/-- UpdateUser from pkg/repository: FetchUser first (propagating its error
unchanged), fail with ErrorUserDoesNotExist when the email is absent, else
PutItem overwrites all fields (full replace). -/
def UpdateUser (db : DynamoDB) (user : User) : Except String User × DynamoDB :=
  match FetchUser db user.Email with
  | Except.error e => (Except.error e, db)
  | Except.ok none => (Except.error ErrorUserDoesNotExist, db)
  | Except.ok (some _) =>
    match putItem db user with
    | Except.error e => (Except.error (ErrorCouldNotDynamoPutItem ++ ": " ++ e), db)
    | Except.ok db2 => (Except.ok user, db2)

/-- DeleteUser from pkg/repository: FetchUser first (propagating its error
unchanged), fail with ErrorUserDoesNotExist when the email is absent, else
DeleteItem (wrapping a transport fault as ErrorCouldNotDeleteItem). -/
def DeleteUser (db : DynamoDB) (email : String) : Except String Unit × DynamoDB :=
  match FetchUser db email with
  | Except.error e => (Except.error e, db)
  | Except.ok none => (Except.error ErrorUserDoesNotExist, db)
  | Except.ok (some _) =>
    match deleteItem db email with
    | Except.error e => (Except.error (ErrorCouldNotDeleteItem ++ ": " ++ e), db)
    | Except.ok db2 => (Except.ok (), db2)

end Repository

namespace Handlers

open Models

/-- Inbound API Gateway event, restricted to the fields the handlers read:
the query-string parameter map and the raw body. -/
structure APIGatewayProxyRequest where
  queryStringParameters : List (String × String)
  body : String
deriving DecidableEq, Repr

/-- Outbound API Gateway response: status code, header map, body string. -/
structure APIGatewayProxyResponse where
  statusCode : Nat
  headers : List (String × String)
  body : String
deriving DecidableEq, Repr

/-- Go map indexing with the zero value: req.QueryStringParameters[k]
yields the empty string when the key is absent. -/
def qsGet (req : APIGatewayProxyRequest) (k : String) : String :=
  (req.queryStringParameters.lookup k).getD ""

/-- The response bodies the handlers pass to apiResponse: nil, an
ErrorBody (whose pointer field is omitted from the JSON when nil), a user
record, or the paged-list map with its optional lastEvaluatedKey entry. -/
inductive RespBody
  | nilBody
  | errBody (msg : Option String)
  | userBody (u : User)
  | pageBody (users : List User) (lastEvaluatedKey : Option String)
deriving DecidableEq, Repr

/-- JSON escaping of a quote or backslash inside a string literal. -/
def jsonEscapeChar (c : Char) : List Char :=
  if c = Char.ofNat 34 ∨ c = Char.ofNat 92 then [Char.ofNat 92, c] else [c]

/-- A JSON string literal for s. -/
def jsonStringLit (s : String) : String :=
  "\"" ++ String.mk (s.toList.foldr (fun c acc => jsonEscapeChar c ++ acc) []) ++ "\""

/-- JSON object for one user record, in struct-tag field order. -/
def marshalUser (u : User) : String :=
  "\x7b\"email\":" ++ jsonStringLit u.Email ++ ",\"firstName\":" ++ jsonStringLit u.FirstName ++
    ",\"lastName\":" ++ jsonStringLit u.LastName ++ "\x7d"

/-- Comma join. -/
def joinComma : List String → String
  | [] => ""
  | [s] => s
  | s :: rest => s ++ "," ++ joinComma rest

/-- JSON array of user records. -/
def marshalUserList (users : List User) : String :=
  "[" ++ joinComma (users.map marshalUser) ++ "]"

/-- Model of encoding/json.Marshal on the payloads the handlers build.
Marshal of these Go values never fails, so this model is total; apiResponse
is nevertheless stated over an arbitrary marshaller so its failure branch
can be analysed.  Go map keys are emitted in sorted order, which puts
lastEvaluatedKey before users in the paged-list object. -/
def jsonMarshal : RespBody → Option String
  | RespBody.nilBody => some "null"
  | RespBody.errBody none => some "\x7b\x7d"
  | RespBody.errBody (some m) => some ("\x7b\"error\":" ++ jsonStringLit m ++ "\x7d")
  | RespBody.userBody u => some (marshalUser u)
  | RespBody.pageBody users none => some ("\x7b\"users\":" ++ marshalUserList users ++ "\x7d")
  | RespBody.pageBody users (some k) =>
    some ("\x7b\"lastEvaluatedKey\":" ++ jsonStringLit k ++ ",\"users\":" ++
      marshalUserList users ++ "\x7d")

/-- The header map apiResponse installs before marshalling. -/
def jsonContentType : List (String × String) := [("Content-Type", "application/json")]

/-- The fallback payload apiResponse emits when marshalling the body
fails. -/
def marshalFallback : String := "\x7b\"error\":\"Failed to marshal response body\"\x7d"

/-- apiResponse from pkg/handlers: set the JSON content-type header and the
requested status, marshal the body; on marshal failure replace the body
with the fixed fallback payload and force status 500.  The Go function
returns a nil error on every path, which the total ok result models. -/
def apiResponse (marshal : RespBody → Option String) (status : Nat) (body : RespBody) :
    Except String APIGatewayProxyResponse :=
  match marshal body with
  | none => Except.ok ⟨500, jsonContentType, marshalFallback⟩
  | some s => Except.ok ⟨status, jsonContentType, s⟩

/-- UnhandledMethod from pkg/handlers: 405 with a Method Not Allowed error
body. -/
def UnhandledMethod : Except String APIGatewayProxyResponse :=
  apiResponse jsonMarshal 405 (RespBody.errBody (some "Method Not Allowed"))

/-- Status code of a handler result (0 for a failed invocation, which the
handlers never produce). -/
def statusOf (r : Except String APIGatewayProxyResponse) : Nat :=
  match r with
  | Except.ok resp => resp.statusCode
  | Except.error _ => 0

/-- Body string of a handler result. -/
def bodyOf (r : Except String APIGatewayProxyResponse) : String :=
  match r with
  | Except.ok resp => resp.body
  | Except.error _ => ""

/-- Model of encoding/json.Unmarshal of a request body into the User
struct, on the canonical wire shape (the one marshalUser emits, without
escape sequences): recovers the three fields or fails. -/
def parseUserJson (s : String) : Option User :=
  match Repository.stripHead ("\x7b\"email\":\"").toList s.toList with
  | none => none
  | some r1 =>
    match Repository.takeToQuote r1 with
    | none => none
    | some (e, r2) =>
      match Repository.stripHead (",\"firstName\":\"").toList r2 with
      | none => none
      | some r3 =>
        match Repository.takeToQuote r3 with
        | none => none
        | some (f, r4) =>
          match Repository.stripHead (",\"lastName\":\"").toList r4 with
          | none => none
          | some r5 =>
            match Repository.takeToQuote r5 with
            | none => none
            | some (l, r6) =>
              if r6 = [Char.ofNat 125] then some ⟨String.mk e, String.mk f, String.mk l⟩
              else none

/-- strconv.Atoi: optional sign, then decimal digits; fails on an empty
string, a stray character, or a value outside the 64-bit signed range (Go
returns ErrRange there, and the handler only uses the value when the error
is nil). -/
def atoi (s : String) : Option Int :=
  match s.toList with
  | [] => none
  | c :: cs =>
    let signAndDigits : Int × List Char :=
      if c = '-' then (-1, cs) else if c = '+' then (1, cs) else (1, c :: cs)
    let sign := signAndDigits.1
    let ds := signAndDigits.2
    if ds.isEmpty then none
    else if ds.all Char.isDigit then
      let n : Nat := ds.foldl (fun a d => a * 10 + (d.toNat - 48)) 0
      let v : Int := sign * (n : Int)
      if v < -(2 ^ 63) ∨ 2 ^ 63 - 1 < v then none else some v
    else none

/-- Limit used by the GET pagination path: default 10, replaced by the
parsed limit query parameter only when parsing succeeds and the value is
positive. -/
def limitOf (req : APIGatewayProxyRequest) : Int :=
  let limitStr := qsGet req "limit"
  if limitStr ≠ "" then
    match atoi limitStr with
    | some l => if 0 < l then l else 10
    | none => 10
  else 10

/-- The single-user branch of handlers.GetUser: FetchUser, mapping a
repository failure to 400 with the error text, a missing user to 404 with
the fixed User not found body, and a found user to 200 with the record. -/
def getUserSingle (db : Repository.DynamoDB) (email : String) :
    Except String APIGatewayProxyResponse :=
  match Repository.FetchUser db email with
  | Except.error e => apiResponse jsonMarshal 400 (RespBody.errBody (some e))
  | Except.ok none => apiResponse jsonMarshal 404 (RespBody.errBody (some "User not found"))
  | Except.ok (some u) => apiResponse jsonMarshal 200 (RespBody.userBody u)

/-- The pagination branch of handlers.GetUser: FetchUsers with the parsed
limit and the lastEvaluatedKey query parameter; failure maps to 400 with
the error text, success to 200 with the users list, the lastEvaluatedKey
entry being added only when the returned token is nonempty. -/
def getUserPage (db : Repository.DynamoDB) (req : APIGatewayProxyRequest) :
    Except String APIGatewayProxyResponse :=
  let lastEvaluatedKey := qsGet req "lastEvaluatedKey"
  match Repository.FetchUsers db (limitOf req) lastEvaluatedKey with
  | Except.error e => apiResponse jsonMarshal 400 (RespBody.errBody (some e))
  | Except.ok (users, newKey) =>
    apiResponse jsonMarshal 200
      (RespBody.pageBody users (if newKey ≠ "" then some newKey else none))

/-- GetUser from pkg/handlers: single-user fetch when the email query
parameter is a nonempty string, pagination otherwise.  GET never mutates
the store, so only the response is returned. -/
def GetUser (db : Repository.DynamoDB) (req : APIGatewayProxyRequest) :
    Except String APIGatewayProxyResponse :=
  let email := qsGet req "email"
  if email ≠ "" then getUserSingle db email else getUserPage db req

/-- CreateUser from pkg/handlers: parse the body, validate, then the
repository create; every failure maps to 400 with the corresponding error
text, success to 201 with the stored record.  The pair carries the
resulting store state. -/
def CreateUser (db : Repository.DynamoDB) (req : APIGatewayProxyRequest) :
    Except String APIGatewayProxyResponse × Repository.DynamoDB :=
  match parseUserJson req.body with
  | none => (apiResponse jsonMarshal 400 (RespBody.errBody (some "Invalid request body")), db)
  | some user =>
    match Validators.ValidateUser user with
    | some msg => (apiResponse jsonMarshal 400 (RespBody.errBody (some msg)), db)
    | none =>
      match Repository.CreateUser db user with
      | (Except.error e, db2) =>
        (apiResponse jsonMarshal 400 (RespBody.errBody (some e)), db2)
      | (Except.ok u, db2) => (apiResponse jsonMarshal 201 (RespBody.userBody u), db2)

/-- UpdateUser from pkg/handlers: parse the body, require a nonempty email,
validate, then the repository update; a repository failure whose message
equals ErrorUserDoesNotExist maps to 404 with the fixed User not found for
update body, every other failure to 400 with the error text, success to 200
with the updated record. -/
def UpdateUser (db : Repository.DynamoDB) (req : APIGatewayProxyRequest) :
    Except String APIGatewayProxyResponse × Repository.DynamoDB :=
  match parseUserJson req.body with
  | none => (apiResponse jsonMarshal 400 (RespBody.errBody (some "Invalid request body")), db)
  | some user =>
    if user.Email = "" then
      (apiResponse jsonMarshal 400 (RespBody.errBody (some "Email is required for user update")), db)
    else
      match Validators.ValidateUser user with
      | some msg => (apiResponse jsonMarshal 400 (RespBody.errBody (some msg)), db)
      | none =>
        match Repository.UpdateUser db user with
        | (Except.error e, db2) =>
          if e = Repository.ErrorUserDoesNotExist then
            (apiResponse jsonMarshal 404 (RespBody.errBody (some "User not found for update")), db2)
          else
            (apiResponse jsonMarshal 400 (RespBody.errBody (some e)), db2)
        | (Except.ok u, db2) => (apiResponse jsonMarshal 200 (RespBody.userBody u), db2)

/-- DeleteUser from pkg/handlers: require a nonempty email query parameter
(else 400), then the repository delete; a repository failure whose message
equals ErrorUserDoesNotExist maps to 404 with the fixed User not found for
deletion body, every other failure to 400 with the error text, success to
204 with a nil body. -/
def DeleteUser (db : Repository.DynamoDB) (req : APIGatewayProxyRequest) :
    Except String APIGatewayProxyResponse × Repository.DynamoDB :=
  let email := qsGet req "email"
  if email = "" then
    (apiResponse jsonMarshal 400
      (RespBody.errBody (some "Email query parameter is required for deletion")), db)
  else
    match Repository.DeleteUser db email with
    | (Except.error e, db2) =>
      if e = Repository.ErrorUserDoesNotExist then
        (apiResponse jsonMarshal 404 (RespBody.errBody (some "User not found for deletion")), db2)
      else
        (apiResponse jsonMarshal 400 (RespBody.errBody (some e)), db2)
    | (Except.ok _, db2) => (apiResponse jsonMarshal 204 RespBody.nilBody, db2)

end Handlers

namespace Repository

/-- A sequential repository write operation (spec §3 lifecycle). -/
inductive RepoOperation
  | createOp (u : Models.User)
  | updateOp (u : Models.User)
  | deleteOp (email : String)
deriving DecidableEq, Repr

/-- The store state after one sequential repository operation. -/
def applyOperation (db : DynamoDB) : RepoOperation → DynamoDB
  | RepoOperation.createOp u => (CreateUser db u).2
  | RepoOperation.updateOp u => (UpdateUser db u).2
  | RepoOperation.deleteOp e => (DeleteUser db e).2

/-- The store state after a sequence of repository operations. -/
def applyOps (db : DynamoDB) (ops : List RepoOperation) : DynamoDB :=
  ops.foldl applyOperation db

/-- No two stored records share an email (spec §3 invariant). -/
def uniqueEmails (l : List Models.User) : Prop :=
  (l.map Models.User.Email).Nodup

instance (l : List Models.User) : Decidable (uniqueEmails l) :=
  inferInstanceAs (Decidable (l.map Models.User.Email).Nodup)

end Repository

section Scratch

example : Validators.IsEmailValid "a@b.com" = true := by decide
example : Validators.IsEmailValid "not-an-email" = false := by decide
example : Validators.IsEmailValid "a@" = false := by decide
example : Validators.IsEmailValid "" = false := by decide
example : Validators.IsEmailValid "a@b" = true := by decide
example : Validators.IsEmailValid "a.b+c@x-y.example.com" = true := by decide
example : Validators.IsEmailValid "a@-b.com" = false := by decide
example : Validators.ValidateUser ⟨"", "A", "B"⟩ = some "email is required" := by decide
example : Validators.ValidateUser ⟨"a@b.com", "", "B"⟩ = some "first name is required" := by decide
example : Validators.ValidateUser ⟨"a@b.com", "A", "B"⟩ = none := by decide

example : Repository.parseKeyJson (Repository.keyJson "a@b.com") = some "a@b.com" := by decide
example : Repository.parseKeyJson "nonsense" = none := by decide
example : Repository.FetchUser ⟨[], none, none, none, none⟩ "a@b.com" = Except.ok none := by decide
example :
    Repository.CreateUser ⟨[], none, none, none, none⟩ ⟨"a@b.com", "A", "B"⟩ =
      (Except.ok ⟨"a@b.com", "A", "B"⟩, ⟨[⟨"a@b.com", "A", "B"⟩], none, none, none, none⟩) := by
  decide
example :
    (Repository.CreateUser ⟨[⟨"a@b.com", "A", "B"⟩], none, none, none, none⟩
      ⟨"a@b.com", "C", "D"⟩).1 = Except.error Repository.ErrorUserAlreadyExists := by decide
example :
    Repository.FetchUsers ⟨[⟨"a@b.com", "A", "B"⟩, ⟨"c@d.com", "C", "D"⟩], none, none, none, none⟩
      1 "" = Except.ok ([⟨"a@b.com", "A", "B"⟩], Repository.keyJson "a@b.com") := by decide
example :
    Repository.FetchUsers ⟨[⟨"a@b.com", "A", "B"⟩, ⟨"c@d.com", "C", "D"⟩], none, none, none, none⟩
      1 (Repository.keyJson "a@b.com") = Except.ok ([⟨"c@d.com", "C", "D"⟩], Repository.keyJson "c@d.com") := by decide
example :
    Repository.FetchUsers ⟨[⟨"a@b.com", "A", "B"⟩, ⟨"c@d.com", "C", "D"⟩], none, none, none, none⟩
      1 (Repository.keyJson "c@d.com") = Except.ok ([], "") := by decide

example :
    Handlers.parseUserJson "\x7b\"email\":\"a@b.com\",\"firstName\":\"A\",\"lastName\":\"B\"\x7d" =
      some ⟨"a@b.com", "A", "B"⟩ := by decide
example : Handlers.parseUserJson "not json" = none := by decide
example : Handlers.atoi "25" = some 25 := by decide
example : Handlers.atoi "-3" = some (-3) := by decide
example : Handlers.atoi "" = none := by decide
example : Handlers.atoi "7x" = none := by decide
example : Handlers.atoi "99999999999999999999" = none := by decide
example : Handlers.limitOf ⟨[("limit", "0")], ""⟩ = 10 := by decide
example : Handlers.limitOf ⟨[("limit", "3")], ""⟩ = 3 := by decide
example : Handlers.limitOf ⟨[], ""⟩ = 10 := by decide
example :
    Handlers.GetUser ⟨[], none, none, none, none⟩ ⟨[("email", "missing@x.com")], ""⟩ =
      Except.ok ⟨404, Handlers.jsonContentType, "\x7b\"error\":\"User not found\"\x7d"⟩ := by
  decide
example :
    Handlers.statusOf (Handlers.GetUser ⟨[], none, none, none, none⟩ ⟨[("email", "")], ""⟩) =
      200 := by decide
example :
    (Handlers.DeleteUser ⟨[⟨"a@b.com", "A", "B"⟩], none, none, none, none⟩
      ⟨[("email", "a@b.com")], ""⟩).1 =
      Except.ok ⟨204, Handlers.jsonContentType, "null"⟩ := by decide

end Scratch

/-! ## Supporting lemmas -/

/-- IsEmailValid holds exactly when the byte length is within 3..254 and
the regex matches. -/
theorem isEmailValid_true_iff (e : String) :
    Validators.IsEmailValid e = true ↔
      3 ≤ e.utf8ByteSize ∧ e.utf8ByteSize ≤ 254 ∧ Validators.rxEmailMatch e = true := by
  simp only [Validators.IsEmailValid]
  rcases hr : Validators.rxEmailMatch e with _ | _
  · simp [hr]
  · simp only [hr, Bool.not_true, Bool.or_false]
    constructor
    · intro h
      rcases Nat.lt_or_ge e.utf8ByteSize 3 with hlt | hge
      · simp [hlt] at h
      · rcases Nat.lt_or_ge 254 e.utf8ByteSize with hgt | hle
        · simp [Nat.lt_iff_add_one_le] at h
          omega
        · exact ⟨hge, hle, by simp⟩
    · rintro ⟨h1, h2, _⟩
      have : ¬ (e.utf8ByteSize < 3) := by omega
      have h4 : ¬ (e.utf8ByteSize > 254) := by omega
      simp [this, h4]

/-! ## Claim C1 -/

/-- Claim C1: ValidateUser checks the rules in the fixed order — empty
email fails with email is required; then an email failing IsEmailValid
(the email grammar together with the 3..254 byte-length bound) fails with
invalid email format; then an empty first name, then an empty last name —
the first failing rule winning, and a record passing all four rules
returning ok (none).  Being a Lean function of the record alone, the
embedded ValidateUser is deterministic, total, and side-effect free. -/
theorem validateUser_rule_order (u : Models.User) :
    (u.Email = "" → Validators.ValidateUser u = some "email is required") ∧
    (u.Email ≠ "" → Validators.IsEmailValid u.Email = false →
      Validators.ValidateUser u = some "invalid email format") ∧
    (Validators.IsEmailValid u.Email = true → u.FirstName = "" →
      Validators.ValidateUser u = some "first name is required") ∧
    (Validators.IsEmailValid u.Email = true → u.FirstName ≠ "" → u.LastName = "" →
      Validators.ValidateUser u = some "last name is required") ∧
    (Validators.IsEmailValid u.Email = true → u.FirstName ≠ "" → u.LastName ≠ "" →
      Validators.ValidateUser u = none) ∧
    (Validators.IsEmailValid u.Email = true →
      3 ≤ u.Email.utf8ByteSize ∧ u.Email.utf8ByteSize ≤ 254) := by
  have hne : Validators.IsEmailValid u.Email = true → u.Email ≠ "" := by
    intro hv he
    rw [he] at hv
    exact absurd hv (by decide)
  refine ⟨?_, ?_, ?_, ?_, ?_, ?_⟩
  · intro h; simp [Validators.ValidateUser, h]
  · intro h1 h2; simp [Validators.ValidateUser, h1, h2]
  · intro hv h2; simp [Validators.ValidateUser, hne hv, hv, h2]
  · intro hv h2 h3; simp [Validators.ValidateUser, hne hv, hv, h2, h3]
  · intro hv h2 h3; simp [Validators.ValidateUser, hne hv, hv, h2, h3]
  · intro hv
    rcases (isEmailValid_true_iff u.Email).mp hv with ⟨h1, h2, _⟩
    exact ⟨h1, h2⟩

/-- Concrete instances of each conjunct of the C1 theorem. -/
theorem validateUser_rule_order_witness :
    Validators.ValidateUser ⟨"", "A", "B"⟩ = some "email is required" ∧
    Validators.ValidateUser ⟨"a@", "A", "B"⟩ = some "invalid email format" ∧
    Validators.ValidateUser ⟨"a@b.com", "", "B"⟩ = some "first name is required" ∧
    Validators.ValidateUser ⟨"a@b.com", "A", ""⟩ = some "last name is required" ∧
    Validators.ValidateUser ⟨"a@b.com", "A", "B"⟩ = none :=
  ⟨(validateUser_rule_order ⟨"", "A", "B"⟩).1 rfl,
   (validateUser_rule_order ⟨"a@", "A", "B"⟩).2.1 (by decide) (by decide),
   (validateUser_rule_order ⟨"a@b.com", "", "B"⟩).2.2.1 (by decide) rfl,
   (validateUser_rule_order ⟨"a@b.com", "A", ""⟩).2.2.2.1 (by decide) (by decide) rfl,
   (validateUser_rule_order ⟨"a@b.com", "A", "B"⟩).2.2.2.2.1 (by decide) (by decide) (by decide)⟩

/-- FetchUser on a store whose GetItem works returns exactly the key
lookup. -/
theorem fetchUser_ok (db : Repository.DynamoDB) (email : String) (h : db.getErr = none) :
    Repository.FetchUser db email = Except.ok (Repository.lookupItem db email) := by
  unfold Repository.FetchUser Repository.getItem
  rw [h]
  cases Repository.lookupItem db email <;> rfl

/-! ## Claim C4 -/

/-- Claim C4: FetchUser reports a missing record as ok none — absence is
never an error — and fails exactly when the GetItem transport fault is
present, wrapping it as the failed-to-fetch error. -/
theorem fetchUser_absent_not_error (db : Repository.DynamoDB) (email : String) :
    (db.getErr = none →
      Repository.FetchUser db email = Except.ok (Repository.lookupItem db email)) ∧
    (db.getErr = none → Repository.lookupItem db email = none →
      Repository.FetchUser db email = Except.ok none) ∧
    (∀ msg, db.getErr = some msg →
      Repository.FetchUser db email =
        Except.error (Repository.ErrorFailedToFetchRecord ++ ": " ++ msg)) ∧
    (∀ e, Repository.FetchUser db email = Except.error e → db.getErr ≠ none) := by
  refine ⟨fetchUser_ok db email, ?_, ?_, ?_⟩
  · intro h hl
    rw [fetchUser_ok db email h, hl]
  · intro msg h
    unfold Repository.FetchUser Repository.getItem
    rw [h]
  · intro e he hg
    rw [fetchUser_ok db email hg] at he
    cases he

/-- Concrete instances of the C4 theorem: an empty store yields ok none,
and an injected transport fault yields the wrapped fetch error. -/
theorem fetchUser_absent_not_error_witness :
    Repository.FetchUser ⟨[], none, none, none, none⟩ "a@b.com" = Except.ok none ∧
    Repository.FetchUser ⟨[], some "boom", none, none, none⟩ "a@b.com" =
      Except.error (Repository.ErrorFailedToFetchRecord ++ ": " ++ "boom") :=
  ⟨(fetchUser_absent_not_error ⟨[], none, none, none, none⟩ "a@b.com").2.1 rfl rfl,
   (fetchUser_absent_not_error ⟨[], some "boom", none, none, none⟩ "a@b.com").2.2.1 "boom" rfl⟩

/-- After a key-replacing put of u, the key lookup for u's email finds
exactly u. -/
theorem find_putList_self (u : Models.User) (l : List Models.User) :
    (Repository.putList u l).find? (fun v => v.Email == u.Email) = some u := by
  induction l with
  | nil => simp [Repository.putList]
  | cons v vs ih =>
    by_cases h : v.Email = u.Email
    · simp [Repository.putList, h]
    · simp [Repository.putList, h, ih]

/-! ## Claim C2 -/

/-- Claim C2: CreateUser first checks existence by primary key — on a
store whose GetItem works, creating a record whose email is already
present fails with the user-already-exists error and leaves the store
unchanged — and a successful create followed by a second create with the
same email fails with the user-already-exists error, again leaving the
store unchanged. -/
theorem createUser_alreadyExists (db : Repository.DynamoDB) (u : Models.User) :
    (db.getErr = none → (Repository.lookupItem db u.Email).isSome = true →
      Repository.CreateUser db u = (Except.error Repository.ErrorUserAlreadyExists, db)) ∧
    (∀ w db2 u2, Repository.CreateUser db u = (Except.ok w, db2) → u2.Email = u.Email →
      Repository.CreateUser db2 u2 = (Except.error Repository.ErrorUserAlreadyExists, db2)) := by
  constructor
  · intro hg hl
    rcases ho : Repository.lookupItem db u.Email with _ | v
    · rw [ho] at hl; cases hl
    · unfold Repository.CreateUser
      rw [fetchUser_ok db u.Email hg, ho]
  · intro w db2 u2 hsucc he
    rcases hg : db.getErr with _ | m
    · rcases hl : Repository.lookupItem db u.Email with _ | v
      · rcases hp : db.putErr with _ | m2
        · have hcreate : Repository.CreateUser db u =
              (Except.ok u, { db with items := Repository.putList u db.items }) := by
            unfold Repository.CreateUser Repository.putItem
            rw [fetchUser_ok db u.Email hg, hl, hp]
          rw [hcreate] at hsucc
          have hdb2 : db2 = { db with items := Repository.putList u db.items } :=
            (Prod.mk.injEq _ _ _ _ ▸ hsucc).2.symm
          have hg2 : db2.getErr = none := by rw [hdb2]; exact hg
          have hl2 : Repository.lookupItem db2 u2.Email = some u := by
            rw [hdb2]
            unfold Repository.lookupItem
            simp only [he]
            exact find_putList_self u db.items
          unfold Repository.CreateUser
          rw [fetchUser_ok db2 u2.Email hg2, hl2]
        · exfalso
          have : Repository.CreateUser db u =
              (Except.error (Repository.ErrorCouldNotDynamoPutItem ++ ": " ++ m2), db) := by
            unfold Repository.CreateUser Repository.putItem
            rw [fetchUser_ok db u.Email hg, hl, hp]
          rw [this] at hsucc
          cases (Prod.mk.injEq _ _ _ _ ▸ hsucc).1
      · exfalso
        have : Repository.CreateUser db u =
            (Except.error Repository.ErrorUserAlreadyExists, db) := by
          unfold Repository.CreateUser
          rw [fetchUser_ok db u.Email hg, hl]
        rw [this] at hsucc
        cases (Prod.mk.injEq _ _ _ _ ▸ hsucc).1
    · exfalso
      have : Repository.CreateUser db u =
          (Except.error (Repository.ErrorFailedToFetchRecord ++ ": " ++ m), db) := by
        unfold Repository.CreateUser Repository.FetchUser Repository.getItem
        rw [hg]
      rw [this] at hsucc
      cases (Prod.mk.injEq _ _ _ _ ▸ hsucc).1

/-- Concrete instances of the C2 theorem: create on a store already holding
the email fails with user already exists and keeps the store; and create
followed by create of the same email fails the same way. -/
theorem createUser_alreadyExists_witness :
    (Repository.CreateUser ⟨[], none, none, none, none⟩ ⟨"a@b.com", "A", "B"⟩).2 =
      ⟨[⟨"a@b.com", "A", "B"⟩], none, none, none, none⟩ ∧
    Repository.CreateUser ⟨[⟨"a@b.com", "A", "B"⟩], none, none, none, none⟩ ⟨"a@b.com", "C", "D"⟩ =
      (Except.error Repository.ErrorUserAlreadyExists,
        ⟨[⟨"a@b.com", "A", "B"⟩], none, none, none, none⟩) :=
  ⟨by decide,
   (createUser_alreadyExists ⟨[], none, none, none, none⟩ ⟨"a@b.com", "A", "B"⟩).2
      ⟨"a@b.com", "A", "B"⟩ ⟨[⟨"a@b.com", "A", "B"⟩], none, none, none, none⟩
      ⟨"a@b.com", "C", "D"⟩ (by decide) rfl⟩

/-- Every email in the list after a key-replacing put is either an email of
the original list or the new record's email. -/
theorem mem_map_email_putList {x : String} (u : Models.User) (l : List Models.User)
    (hx : x ∈ (Repository.putList u l).map Models.User.Email) :
    x ∈ l.map Models.User.Email ∨ x = u.Email := by
  induction l with
  | nil =>
    simp [Repository.putList] at hx
    exact Or.inr hx
  | cons v vs ih =>
    by_cases h : v.Email = u.Email
    · simp [Repository.putList, h] at hx
      rcases hx with hx | hx
      · exact Or.inr hx
      · exact Or.inl (by simp [hx])
    · simp only [Repository.putList, h] at hx
      rw [if_neg (by simpa using h)] at hx
      simp only [List.map_cons, List.mem_cons] at hx
      rcases hx with hx | hx
      · exact Or.inl (by simp [hx])
      · rcases ih hx with h1 | h1
        · exact Or.inl (by simp [h1])
        · exact Or.inr h1

/-- A key-replacing put preserves the email-uniqueness invariant. -/
theorem uniqueEmails_putList (u : Models.User) (l : List Models.User)
    (h : Repository.uniqueEmails l) : Repository.uniqueEmails (Repository.putList u l) := by
  induction l with
  | nil => simp [Repository.uniqueEmails, Repository.putList]
  | cons v vs ih =>
    rcases (List.nodup_cons.mp h) with ⟨hnotin, hvs⟩
    by_cases hv : v.Email = u.Email
    · unfold Repository.uniqueEmails
      simp only [Repository.putList]
      rw [if_pos (by simpa using hv)]
      simp only [List.map_cons]
      exact List.nodup_cons.mpr ⟨by rw [← hv]; exact hnotin, hvs⟩
    · unfold Repository.uniqueEmails
      simp only [Repository.putList]
      rw [if_neg (by simpa using hv)]
      simp only [List.map_cons]
      refine List.nodup_cons.mpr ⟨?_, ih hvs⟩
      intro hmem
      rcases mem_map_email_putList u vs hmem with h1 | h1
      · exact hnotin h1
      · exact hv h1

/-- Removing the records under a key preserves the email-uniqueness
invariant. -/
theorem uniqueEmails_filter (p : Models.User → Bool) (l : List Models.User)
    (h : Repository.uniqueEmails l) : Repository.uniqueEmails (l.filter p) :=
  List.Nodup.sublist (List.Sublist.map Models.User.Email (List.filter_sublist l)) h

/-- The store state after CreateUser is the input state or a key-replacing
put of the new record. -/
theorem createUser_state_cases (db : Repository.DynamoDB) (u : Models.User) :
    (Repository.CreateUser db u).2 = db ∨
      (Repository.CreateUser db u).2.items = Repository.putList u db.items := by
  unfold Repository.CreateUser
  cases hf : Repository.FetchUser db u.Email with
  | error e => simp [hf]
  | ok o =>
    cases o with
    | some v => simp [hf]
    | none =>
      unfold Repository.putItem
      cases hp : db.putErr with
      | some e => simp [hf, hp]
      | none => simp [hf, hp]

/-- The store state after UpdateUser is the input state or a key-replacing
put of the new record. -/
theorem updateUser_state_cases (db : Repository.DynamoDB) (u : Models.User) :
    (Repository.UpdateUser db u).2 = db ∨
      (Repository.UpdateUser db u).2.items = Repository.putList u db.items := by
  unfold Repository.UpdateUser
  cases hf : Repository.FetchUser db u.Email with
  | error e => simp [hf]
  | ok o =>
    cases o with
    | none => simp [hf]
    | some v =>
      unfold Repository.putItem
      cases hp : db.putErr with
      | some e => simp [hf, hp]
      | none => simp [hf, hp]

/-- The store state after DeleteUser is the input state or a key filter. -/
theorem deleteUser_state_cases (db : Repository.DynamoDB) (email : String) :
    (Repository.DeleteUser db email).2 = db ∨
      (Repository.DeleteUser db email).2.items =
        db.items.filter (fun u => u.Email != email) := by
  unfold Repository.DeleteUser
  cases hf : Repository.FetchUser db email with
  | error e => simp [hf]
  | ok o =>
    cases o with
    | none => simp [hf]
    | some v =>
      unfold Repository.deleteItem
      cases hd : db.deleteErr with
      | some e => simp [hf, hd]
      | none => simp [hf, hd]

/-- One sequential repository operation preserves email uniqueness. -/
theorem applyOperation_uniqueEmails (db : Repository.DynamoDB)
    (op : Repository.RepoOperation) (h : Repository.uniqueEmails db.items) :
    Repository.uniqueEmails (Repository.applyOperation db op).items := by
  cases op with
  | createOp u =>
    rcases createUser_state_cases db u with h2 | h2
    · simpa [Repository.applyOperation, h2] using h
    · rw [Repository.applyOperation, h2]
      exact uniqueEmails_putList u db.items h
  | updateOp u =>
    rcases updateUser_state_cases db u with h2 | h2
    · simpa [Repository.applyOperation, h2] using h
    · rw [Repository.applyOperation, h2]
      exact uniqueEmails_putList u db.items h
  | deleteOp e =>
    rcases deleteUser_state_cases db e with h2 | h2
    · simpa [Repository.applyOperation, h2] using h
    · rw [Repository.applyOperation, h2]
      exact uniqueEmails_filter _ db.items h

/-! ## Claim C5 -/

/-- Claim C5: starting from a store whose records have pairwise-distinct
emails, every sequence of sequential repository operations (create, update,
delete) preserves the invariant that no two stored records share an
email. -/
theorem repo_ops_preserve_uniqueEmails (db : Repository.DynamoDB)
    (ops : List Repository.RepoOperation) (h : Repository.uniqueEmails db.items) :
    Repository.uniqueEmails (Repository.applyOps db ops).items := by
  induction ops generalizing db with
  | nil => exact h
  | cons op rest ih =>
    have hstep := applyOperation_uniqueEmails db op h
    simpa [Repository.applyOps, List.foldl_cons] using
      ih (Repository.applyOperation db op) hstep

/-- Concrete instance of the C5 theorem: a create–create–delete sequence
from the empty store keeps emails unique. -/
theorem repo_ops_preserve_uniqueEmails_witness :
    Repository.uniqueEmails
      (Repository.applyOps ⟨[], none, none, none, none⟩
        [Repository.RepoOperation.createOp ⟨"a@b.com", "A", "B"⟩,
         Repository.RepoOperation.createOp ⟨"c@d.com", "C", "D"⟩,
         Repository.RepoOperation.deleteOp "a@b.com"]).items :=
  repo_ops_preserve_uniqueEmails ⟨[], none, none, none, none⟩
    [Repository.RepoOperation.createOp ⟨"a@b.com", "A", "B"⟩,
     Repository.RepoOperation.createOp ⟨"c@d.com", "C", "D"⟩,
     Repository.RepoOperation.deleteOp "a@b.com"] (by decide)

/-! ## Claim C3 -/

/-- Claim C3: on a store whose GetItem works and holds no record under the
key, the repository update and delete fail with the user-does-not-exist
error and leave the store unchanged; and the update and delete handlers map
exactly that repository failure to a 404 response, every other repository
failure to a 400 response. -/
theorem updateDelete_notFound_mapping (db : Repository.DynamoDB) (u : Models.User)
    (email : String) :
    (db.getErr = none → Repository.lookupItem db u.Email = none →
      Repository.UpdateUser db u = (Except.error Repository.ErrorUserDoesNotExist, db)) ∧
    (db.getErr = none → Repository.lookupItem db email = none →
      Repository.DeleteUser db email = (Except.error Repository.ErrorUserDoesNotExist, db)) ∧
    (∀ req user e db2, Handlers.parseUserJson req.body = some user → user.Email ≠ "" →
      Validators.ValidateUser user = none →
      Repository.UpdateUser db user = (Except.error e, db2) →
      Handlers.statusOf (Handlers.UpdateUser db req).1 =
        (if e = Repository.ErrorUserDoesNotExist then 404 else 400)) ∧
    (∀ req e db2, Handlers.qsGet req "email" = email → email ≠ "" →
      Repository.DeleteUser db email = (Except.error e, db2) →
      Handlers.statusOf (Handlers.DeleteUser db req).1 =
        (if e = Repository.ErrorUserDoesNotExist then 404 else 400)) := by
  refine ⟨?_, ?_, ?_, ?_⟩
  · intro hg hl
    unfold Repository.UpdateUser
    rw [fetchUser_ok db u.Email hg, hl]
  · intro hg hl
    unfold Repository.DeleteUser
    rw [fetchUser_ok db email hg, hl]
  · intro req user e db2 hp hne hv hupd
    unfold Handlers.UpdateUser
    rw [hp]
    dsimp only
    rw [if_neg hne, hv, hupd]
    dsimp only
    by_cases he : e = Repository.ErrorUserDoesNotExist
    · simp [he, Handlers.apiResponse, Handlers.jsonMarshal, Handlers.statusOf]
    · simp [he, Handlers.apiResponse, Handlers.jsonMarshal, Handlers.statusOf]
  · intro req e db2 hq hne hdel
    unfold Handlers.DeleteUser
    rw [hq, if_neg hne, hdel]
    by_cases he : e = Repository.ErrorUserDoesNotExist
    · simp [he, Handlers.apiResponse, Handlers.jsonMarshal, Handlers.statusOf]
    · simp [he, Handlers.apiResponse, Handlers.jsonMarshal, Handlers.statusOf]

/-- Concrete instances of the C3 theorem: not-found update and delete on
the empty store, the 404 mapping of the update handler on that store, and
the 400 mapping of the delete handler under an injected transport fault. -/
theorem updateDelete_notFound_mapping_witness :
    Repository.UpdateUser ⟨[], none, none, none, none⟩ ⟨"a@b.com", "A", "B"⟩ =
      (Except.error Repository.ErrorUserDoesNotExist, ⟨[], none, none, none, none⟩) ∧
    Repository.DeleteUser ⟨[], none, none, none, none⟩ "a@b.com" =
      (Except.error Repository.ErrorUserDoesNotExist, ⟨[], none, none, none, none⟩) ∧
    Handlers.statusOf (Handlers.UpdateUser ⟨[], none, none, none, none⟩
      ⟨[], "\x7b\"email\":\"a@b.com\",\"firstName\":\"A\",\"lastName\":\"B\"\x7d"⟩).1 = 404 ∧
    Handlers.statusOf (Handlers.DeleteUser ⟨[], some "boom", none, none, none⟩
      ⟨[("email", "a@b.com")], ""⟩).1 = 400 :=
  ⟨(updateDelete_notFound_mapping ⟨[], none, none, none, none⟩ ⟨"a@b.com", "A", "B"⟩
      "a@b.com").1 rfl rfl,
   (updateDelete_notFound_mapping ⟨[], none, none, none, none⟩ ⟨"a@b.com", "A", "B"⟩
      "a@b.com").2.1 rfl rfl,
   ((updateDelete_notFound_mapping ⟨[], none, none, none, none⟩ ⟨"a@b.com", "A", "B"⟩
      "a@b.com").2.2.1
      ⟨[], "\x7b\"email\":\"a@b.com\",\"firstName\":\"A\",\"lastName\":\"B\"\x7d"⟩
      ⟨"a@b.com", "A", "B"⟩ Repository.ErrorUserDoesNotExist ⟨[], none, none, none, none⟩
      (by decide) (by decide) (by decide) (by decide)).trans (by decide),
   ((updateDelete_notFound_mapping ⟨[], some "boom", none, none, none⟩ ⟨"a@b.com", "A", "B"⟩
      "a@b.com").2.2.2
      ⟨[("email", "a@b.com")], ""⟩
      (Repository.ErrorFailedToFetchRecord ++ ": " ++ "boom") ⟨[], some "boom", none, none, none⟩
      (by decide) (by decide) (by decide)).trans (by decide)⟩

/-- FetchUser under an injected GetItem transport fault returns the wrapped
fetch error. -/
theorem fetchUser_fault (db : Repository.DynamoDB) (email msg : String)
    (h : db.getErr = some msg) :
    Repository.FetchUser db email =
      Except.error (Repository.ErrorFailedToFetchRecord ++ ": " ++ msg) := by
  unfold Repository.FetchUser Repository.getItem
  rw [h]

/-! ## Claim C6 (corrected) -/

/-- Claim C6 as stated is false at a request whose query parameters map
email to the empty string: the parameter is present, yet the handler takes
the pagination path, answering 200 with an empty users list on the empty
store instead of the 404 User not found response the claim requires for an
absent record. -/
theorem getUser_present_empty_email_counterexample :
    Handlers.GetUser ⟨[], none, none, none, none⟩ ⟨[("email", "")], ""⟩ =
      Except.ok ⟨200, Handlers.jsonContentType, "\x7b\"users\":[]\x7d"⟩ ∧
    Handlers.statusOf
      (Handlers.GetUser ⟨[], none, none, none, none⟩ ⟨[("email", "")], ""⟩) ≠ 404 := by
  decide

/-- Claim C6 amended: for every GET request whose email query parameter has
a nonempty value, the handler fetches the single record: a missing record
yields 404 with the User not found error body, a store failure yields 400
carrying the error detail, and a found record yields 200 with the
record. -/
theorem getUser_single_fetch (db : Repository.DynamoDB)
    (req : Handlers.APIGatewayProxyRequest) (email : String)
    (hq : Handlers.qsGet req "email" = email) (hne : email ≠ "") :
    (db.getErr = none → Repository.lookupItem db email = none →
      Handlers.GetUser db req =
        Except.ok ⟨404, Handlers.jsonContentType, "\x7b\"error\":\"User not found\"\x7d"⟩) ∧
    (∀ msg, db.getErr = some msg →
      Handlers.GetUser db req =
        Handlers.apiResponse Handlers.jsonMarshal 400
          (Handlers.RespBody.errBody
            (some (Repository.ErrorFailedToFetchRecord ++ ": " ++ msg)))) ∧
    (∀ v, db.getErr = none → Repository.lookupItem db email = some v →
      Handlers.GetUser db req =
        Handlers.apiResponse Handlers.jsonMarshal 200 (Handlers.RespBody.userBody v)) := by
  have hbranch : Handlers.GetUser db req = Handlers.getUserSingle db email := by
    unfold Handlers.GetUser
    dsimp only
    rw [hq, if_pos hne]
  refine ⟨?_, ?_, ?_⟩
  · intro hg hl
    rw [hbranch]
    unfold Handlers.getUserSingle
    rw [fetchUser_ok db email hg, hl]
    rfl
  · intro msg hg
    rw [hbranch]
    unfold Handlers.getUserSingle
    rw [fetchUser_fault db email msg hg]
  · intro v hg hl
    rw [hbranch]
    unfold Handlers.getUserSingle
    rw [fetchUser_ok db email hg, hl]

/-- Concrete instances of the amended C6 theorem: the 404 on a missing
record (scenario B) and the 200 on a present record. -/
theorem getUser_single_fetch_witness :
    Handlers.GetUser ⟨[], none, none, none, none⟩ ⟨[("email", "missing@x.com")], ""⟩ =
      Except.ok ⟨404, Handlers.jsonContentType, "\x7b\"error\":\"User not found\"\x7d"⟩ ∧
    Handlers.GetUser ⟨[⟨"a@b.com", "A", "B"⟩], none, none, none, none⟩
        ⟨[("email", "a@b.com")], ""⟩ =
      Handlers.apiResponse Handlers.jsonMarshal 200
        (Handlers.RespBody.userBody ⟨"a@b.com", "A", "B"⟩) :=
  ⟨(getUser_single_fetch ⟨[], none, none, none, none⟩ ⟨[("email", "missing@x.com")], ""⟩
      "missing@x.com" (by decide) (by decide)).1 rfl rfl,
   (getUser_single_fetch ⟨[⟨"a@b.com", "A", "B"⟩], none, none, none, none⟩
      ⟨[("email", "a@b.com")], ""⟩ "a@b.com" (by decide) (by decide)).2.2
      ⟨"a@b.com", "A", "B"⟩ rfl (by decide)⟩

/-! ## Claim C10 -/

/-- Claim C10: a GET request whose query parameters map email to the empty
string (parameter present but empty, which Go map indexing cannot tell from
absent) takes the pagination path — its result is the pagination branch,
whatever GetItem behaviour is injected, so the single-record fetch plays no
part — and the single-record path is taken exactly when the email value is
nonempty. -/
theorem getUser_empty_email_pagination (db : Repository.DynamoDB)
    (req : Handlers.APIGatewayProxyRequest) :
    (Handlers.qsGet req "email" = "" →
      Handlers.GetUser db req = Handlers.getUserPage db req ∧
      ∀ g, Handlers.GetUser { db with getErr := g } req = Handlers.getUserPage db req) ∧
    (Handlers.qsGet req "email" ≠ "" →
      Handlers.GetUser db req = Handlers.getUserSingle db (Handlers.qsGet req "email")) := by
  constructor
  · intro h
    constructor
    · unfold Handlers.GetUser
      dsimp only
      rw [h]
      simp
    · intro g
      unfold Handlers.GetUser
      dsimp only
      rw [h]
      simp
      rfl
  · intro h
    unfold Handlers.GetUser
    dsimp only
    rw [if_pos h]

/-- Concrete instances of the C10 theorem: the empty-valued email parameter
routes to pagination, the nonempty one to the single fetch. -/
theorem getUser_empty_email_pagination_witness :
    Handlers.GetUser ⟨[], none, none, none, none⟩ ⟨[("email", "")], ""⟩ =
      Handlers.getUserPage ⟨[], none, none, none, none⟩ ⟨[("email", "")], ""⟩ ∧
    Handlers.GetUser ⟨[], none, none, none, none⟩ ⟨[("email", "x@y.com")], ""⟩ =
      Handlers.getUserSingle ⟨[], none, none, none, none⟩ "x@y.com" :=
  ⟨((getUser_empty_email_pagination ⟨[], none, none, none, none⟩
      ⟨[("email", "")], ""⟩).1 (by decide)).1,
   ((getUser_empty_email_pagination ⟨[], none, none, none, none⟩
      ⟨[("email", "x@y.com")], ""⟩).2 (by decide)).trans (by decide)⟩

/-! ## Claim C7 -/

/-- Claim C7: on the pagination path (no nonempty email value), the handler
calls FetchUsers with a limit that falls back to the default 10 when the
limit query parameter is missing, unparsable, or non-positive, and with the
parsed positive value otherwise; a repository failure yields 400 with the
error detail, success yields 200 with the users list whose
lastEvaluatedKey entry is present exactly when the repository returned a
nonempty continuation token. -/
theorem getUser_pagination_contract (db : Repository.DynamoDB)
    (req : Handlers.APIGatewayProxyRequest) (h : Handlers.qsGet req "email" = "") :
    (Handlers.qsGet req "limit" = "" → Handlers.limitOf req = 10) ∧
    (Handlers.atoi (Handlers.qsGet req "limit") = none → Handlers.limitOf req = 10) ∧
    (∀ l, Handlers.atoi (Handlers.qsGet req "limit") = some l → l ≤ 0 →
      Handlers.limitOf req = 10) ∧
    (∀ l, Handlers.atoi (Handlers.qsGet req "limit") = some l → 0 < l →
      Handlers.limitOf req = l) ∧
    (∀ e, Repository.FetchUsers db (Handlers.limitOf req)
        (Handlers.qsGet req "lastEvaluatedKey") = Except.error e →
      Handlers.GetUser db req =
        Handlers.apiResponse Handlers.jsonMarshal 400 (Handlers.RespBody.errBody (some e))) ∧
    (∀ users tok, Repository.FetchUsers db (Handlers.limitOf req)
        (Handlers.qsGet req "lastEvaluatedKey") = Except.ok (users, tok) →
      Handlers.GetUser db req =
        Handlers.apiResponse Handlers.jsonMarshal 200
          (Handlers.RespBody.pageBody users (if tok ≠ "" then some tok else none))) := by
  have hbranch : Handlers.GetUser db req = Handlers.getUserPage db req := by
    unfold Handlers.GetUser
    dsimp only
    rw [h]
    simp
  refine ⟨?_, ?_, ?_, ?_, ?_, ?_⟩
  · intro hq
    unfold Handlers.limitOf
    dsimp only
    rw [hq]
    simp
  · intro ha
    unfold Handlers.limitOf
    dsimp only
    by_cases hq : Handlers.qsGet req "limit" = ""
    · rw [hq]; simp
    · rw [if_pos hq, ha]
  · intro l ha hl
    unfold Handlers.limitOf
    dsimp only
    by_cases hq : Handlers.qsGet req "limit" = ""
    · rw [hq]; simp
    · rw [if_pos hq, ha]
      dsimp only
      rw [if_neg (by omega)]
  · intro l ha hl
    unfold Handlers.limitOf
    dsimp only
    have hq : ¬ Handlers.qsGet req "limit" = "" := by
      intro hq
      rw [hq] at ha
      rw [show Handlers.atoi "" = none from rfl] at ha
      cases ha
    rw [if_pos hq, ha]
    dsimp only
    rw [if_pos hl]
  · intro e hf
    rw [hbranch]
    unfold Handlers.getUserPage
    dsimp only
    rw [hf]
  · intro users tok hf
    rw [hbranch]
    unfold Handlers.getUserPage
    dsimp only
    rw [hf]

/-- Concrete instances of the C7 theorem: an explicit limit of 1 over a
two-record store pages with a continuation token; a malformed pagination
token yields 400. -/
theorem getUser_pagination_contract_witness :
    Handlers.limitOf ⟨[("email", ""), ("limit", "1")], ""⟩ = 1 ∧
    Handlers.GetUser ⟨[⟨"a@b.com", "A", "B"⟩, ⟨"c@d.com", "C", "D"⟩], none, none, none, none⟩
        ⟨[("email", ""), ("limit", "1")], ""⟩ =
      Handlers.apiResponse Handlers.jsonMarshal 200
        (Handlers.RespBody.pageBody [⟨"a@b.com", "A", "B"⟩]
          (some (Repository.keyJson "a@b.com"))) ∧
    Handlers.GetUser ⟨[], none, none, none, none⟩
        ⟨[("email", ""), ("lastEvaluatedKey", "bad")], ""⟩ =
      Handlers.apiResponse Handlers.jsonMarshal 400
        (Handlers.RespBody.errBody (some Repository.ErrorInvalidLastEvaluatedKey)) :=
  ⟨(getUser_pagination_contract ⟨[], none, none, none, none⟩
      ⟨[("email", ""), ("limit", "1")], ""⟩ (by decide)).2.2.2.1 1 (by decide) (by decide),
   ((getUser_pagination_contract
      ⟨[⟨"a@b.com", "A", "B"⟩, ⟨"c@d.com", "C", "D"⟩], none, none, none, none⟩
      ⟨[("email", ""), ("limit", "1")], ""⟩ (by decide)).2.2.2.2.2
      [⟨"a@b.com", "A", "B"⟩] (Repository.keyJson "a@b.com") (by decide)).trans (by decide),
   (getUser_pagination_contract ⟨[], none, none, none, none⟩
      ⟨[("email", ""), ("lastEvaluatedKey", "bad")], ""⟩ (by decide)).2.2.2.2.1
      Repository.ErrorInvalidLastEvaluatedKey (by decide)⟩

/-! ## Claim C9 -/

/-- Claim C9: for every marshaller, status, and body, the response
formatter always sets exactly the JSON content-type header and always
returns a response (never a failed invocation); when marshalling succeeds
the body is the serialized payload under the requested status, and when
marshalling fails the original body and status are discarded for a forced
500 carrying the fixed fallback payload, which reads as the error object
Failed to marshal response body. -/
theorem apiResponse_formatting (marshal : Handlers.RespBody → Option String) (status : Nat)
    (body : Handlers.RespBody) :
    (∃ r, Handlers.apiResponse marshal status body = Except.ok r) ∧
    (∀ r, Handlers.apiResponse marshal status body = Except.ok r →
      r.headers = Handlers.jsonContentType) ∧
    (∀ s, marshal body = some s →
      Handlers.apiResponse marshal status body =
        Except.ok ⟨status, Handlers.jsonContentType, s⟩) ∧
    (marshal body = none →
      Handlers.apiResponse marshal status body =
        Except.ok ⟨500, Handlers.jsonContentType, Handlers.marshalFallback⟩) ∧
    Handlers.marshalFallback = "\x7b\"error\":\"Failed to marshal response body\"\x7d" := by
  refine ⟨?_, ?_, ?_, ?_, rfl⟩
  · unfold Handlers.apiResponse
    cases marshal body with
    | none => exact ⟨_, rfl⟩
    | some s => exact ⟨_, rfl⟩
  · intro r hr
    unfold Handlers.apiResponse at hr
    cases hm : marshal body with
    | none => rw [hm] at hr; cases hr; rfl
    | some s => rw [hm] at hr; cases hr; rfl
  · intro s hm
    unfold Handlers.apiResponse
    rw [hm]
  · intro hm
    unfold Handlers.apiResponse
    rw [hm]

/-- Concrete instances of the C9 theorem: a marshaller that fails forces
the 500 fallback regardless of the requested status, and the concrete
marshaller keeps the requested status and payload. -/
theorem apiResponse_formatting_witness :
    Handlers.apiResponse (fun _ => none) 200 Handlers.RespBody.nilBody =
      Except.ok ⟨500, Handlers.jsonContentType, Handlers.marshalFallback⟩ ∧
    Handlers.apiResponse Handlers.jsonMarshal 201 (Handlers.RespBody.errBody none) =
      Except.ok ⟨201, Handlers.jsonContentType, "\x7b\x7d"⟩ :=
  ⟨(apiResponse_formatting (fun _ => none) 200 Handlers.RespBody.nilBody).2.2.2.1 rfl,
   (apiResponse_formatting Handlers.jsonMarshal 201 (Handlers.RespBody.errBody none)).2.2.1
     "\x7b\x7d" rfl⟩

/-! ## Claim C8 (corrected) -/

/-- Claim C8 as stated is false: json.Marshal of a nil body produces the
JSON literal null, so the formatter emits the four-character body null, not
an empty body; the successful DELETE of an existing record answers 204 with
body null. -/
theorem nil_body_marshals_null_counterexample :
    Handlers.apiResponse Handlers.jsonMarshal 204 Handlers.RespBody.nilBody =
      Except.ok ⟨204, Handlers.jsonContentType, "null"⟩ ∧
    Handlers.bodyOf
      (Handlers.apiResponse Handlers.jsonMarshal 204 Handlers.RespBody.nilBody) ≠ "" ∧
    (Handlers.DeleteUser ⟨[⟨"a@b.com", "A", "B"⟩], none, none, none, none⟩
        ⟨[("email", "a@b.com")], ""⟩).1 =
      Except.ok ⟨204, Handlers.jsonContentType, "null"⟩ := by
  decide

/-- Claim C8 amended: a nil body serializes to the JSON literal null — a
four-character body, not an empty one — under any requested status, and a
successful DELETE of an existing record (nonempty email parameter, working
store, record present) returns 204 with body null. -/
theorem deleteUser_204_null_body (db : Repository.DynamoDB)
    (req : Handlers.APIGatewayProxyRequest) (email : String) (v : Models.User)
    (hq : Handlers.qsGet req "email" = email) (hne : email ≠ "")
    (hg : db.getErr = none) (hd : db.deleteErr = none)
    (hl : Repository.lookupItem db email = some v) :
    (∀ status : Nat,
      Handlers.apiResponse Handlers.jsonMarshal status Handlers.RespBody.nilBody =
        Except.ok ⟨status, Handlers.jsonContentType, "null"⟩) ∧
    (Handlers.DeleteUser db req).1 = Except.ok ⟨204, Handlers.jsonContentType, "null"⟩ := by
  constructor
  · intro status
    rfl
  · unfold Handlers.DeleteUser
    dsimp only
    rw [hq, if_neg hne]
    have hdel : Repository.DeleteUser db email =
        (Except.ok (), { db with items := db.items.filter (fun u => u.Email != email) }) := by
      unfold Repository.DeleteUser Repository.deleteItem
      rw [fetchUser_ok db email hg, hl, hd]
    rw [hdel]
    rfl

/-- Concrete instance of the amended C8 theorem: scenario D's DELETE on a
store holding the record. -/
theorem deleteUser_204_null_body_witness :
    (Handlers.DeleteUser ⟨[⟨"a@b.com", "A", "B"⟩], none, none, none, none⟩
        ⟨[("email", "a@b.com")], ""⟩).1 =
      Except.ok ⟨204, Handlers.jsonContentType, "null"⟩ :=
  (deleteUser_204_null_body ⟨[⟨"a@b.com", "A", "B"⟩], none, none, none, none⟩
    ⟨[("email", "a@b.com")], ""⟩ "a@b.com" ⟨"a@b.com", "A", "B"⟩
    (by decide) (by decide) rfl rfl (by decide)).2
